import Mathlib

/-!
Shallow embedding of `src/scripts/DiscoverOrganizations/discoverOrganizations.py`.

The script is a linear pipeline: read the environment variables GHES_TOKEN and
GHES_HOST, build two request headers, issue one HTTP GET to
https://HOST/api/v3/organizations, decode the response body as JSON, open
`organizations.txt` for writing (truncating), write each element of the decoded
array as its `login` field followed by a newline, and close the file.

We model the environment as an oracle `String → Option String` (as
`os.environ.get` returns), the HTTP layer as an oracle from requests to either
a transport error or a response, and the working directory state of
`organizations.txt` as an `Option String` (`none` = the file does not exist).
Python runtime failures that the script can hit (TypeError on `None`
concatenation, KeyError on a missing dictionary key, JSONDecodeError on a body
that is not JSON) are explicit error values.
-/

/-- A JSON value, as produced by decoding a response body. Objects are
association lists of string keys to values. -/
inductive Json where
  | null : Json
  | bool : Bool → Json
  | num : Int → Json
  | str : String → Json
  | arr : List Json → Json
  | obj : List (String × Json) → Json
deriving Repr

/-- The Python runtime failures reachable from the script: TypeError
(concatenating or subscripting a value of the wrong type, iterating a
non-iterable, writing a non-string), KeyError (missing dictionary key),
JSONDecodeError (`response.json()` on a non-JSON body), and the transport
errors raised inside `requests.get`. -/
inductive PyError where
  | typeError : PyError
  | keyError : String → PyError
  | jsonDecodeError : PyError
  | connectionError : PyError
deriving Repr, DecidableEq

/-- An outgoing HTTP request as the script constructs it: method, URL and the
headers the script itself sets. -/
structure HttpRequest where
  method : String
  url : String
  headers : List (String × String)
deriving Repr

/-- An HTTP response: its status code and the result of parsing its body as
JSON (`none` when the body is not valid JSON, so that `response.json()`
raises). The script never reads any other part of the response. -/
structure HttpResponse where
  status : Nat
  jsonBody : Option Json
deriving Repr

/-- The observable outcome of one run of the script: whether it terminated
normally or with an uncaught error, the final state of `organizations.txt`
(`none` = absent), the HTTP requests issued in order, and whether the output
file was opened and whether `f.close()` was executed. -/
structure RunResult where
  outcome : Except PyError Unit
  fs : Option String
  requests : List HttpRequest
  opened : Bool
  closed : Bool
deriving Repr

/-- Line 19 of the script: `OUTPUT_FILE="organizations.txt"`. -/
def OUTPUT_FILE : String := "organizations.txt"

/-- Line 23: `customHeaders={"Authorization": "token " + GHES_TOKEN,
"Accept": "application/vnd.github.v3+json"}`, for an already-present token
string. -/
def customHeaders (GHES_TOKEN : String) : List (String × String) :=
  [("Authorization", "token " ++ GHES_TOKEN),
   ("Accept", "application/vnd.github.v3+json")]

/-- Line 25: the URL expression `"https://" + GHES_HOST + "/api/v3/organizations"`,
for an already-present host string. -/
def orgsUrl (GHES_HOST : String) : String :=
  "https://" ++ GHES_HOST ++ "/api/v3/organizations"

/-- The single request the script issues once both variables are present:
a GET to `orgsUrl` carrying `customHeaders`. -/
def theRequest (token host : String) : HttpRequest :=
  { method := "GET", url := orgsUrl host, headers := customHeaders token }

/-- Python dictionary lookup on an association list (first binding wins). -/
def dictGet : List (String × Json) → String → Option Json
  | [], _ => none
  | (k, v) :: rest, key => if k = key then some v else dictGet rest key

/-- Python subscription `org["login"]`: succeeds only on a dictionary that has
the key; a dictionary without the key raises KeyError; subscripting a string,
list, number, boolean or None with a string key raises TypeError. -/
def pySubscript : Json → String → Except PyError Json
  | Json.obj kvs, key =>
      match dictGet kvs key with
      | some v => Except.ok v
      | none => Except.error (PyError.keyError key)
  | _, _ => Except.error PyError.typeError

/-- Python iteration `for org in listOrgs`: a list yields its elements, a
dictionary yields its keys, a string yields its one-character substrings;
numbers, booleans and None are not iterable (TypeError). -/
def pyIter : Json → Except PyError (List Json)
  | Json.arr xs => Except.ok xs
  | Json.obj kvs => Except.ok (kvs.map (fun kv => Json.str kv.1))
  | Json.str s => Except.ok (s.data.map (fun c => Json.str (String.mk [c])))
  | _ => Except.error PyError.typeError

/-- Lines 34-36, the write loop: for each element, `f.write(org["login"])`
then `f.write("\n")`. `f.write` requires a string argument. On any failure the
loop stops, keeping the content written so far. Returns the accumulated file
content and the loop outcome. -/
def writeLoop (content : String) : List Json → String × Except PyError Unit
  | [] => (content, Except.ok ())
  | org :: rest =>
      match pySubscript org "login" with
      | Except.error e => (content, Except.error e)
      | Except.ok (Json.str s) => writeLoop (content ++ s ++ "\n") rest
      | Except.ok _ => (content, Except.error PyError.typeError)

/-- One run of the script, from an environment oracle, an HTTP oracle and the
prior state of `organizations.txt`. Mirrors the source line by line:
lines 16/18 read the variables; line 23 builds the headers (TypeError if the
token is `None`); line 25 builds the URL (TypeError if the host is `None`) and
performs the GET; line 28 decodes the body (JSONDecodeError if not JSON);
line 31 opens the file in `"w"` mode, truncating it; lines 34-36 run the write
loop; line 39 closes the file, reached only when the loop finishes. -/
def scriptRun (env : String → Option String)
    (http : HttpRequest → Except PyError HttpResponse)
    (fs : Option String) : RunResult :=
  match env "GHES_TOKEN" with
  | none =>
      { outcome := Except.error PyError.typeError, fs := fs, requests := [],
        opened := false, closed := false }
  | some token =>
      match env "GHES_HOST" with
      | none =>
          { outcome := Except.error PyError.typeError, fs := fs, requests := [],
            opened := false, closed := false }
      | some host =>
          match http (theRequest token host) with
          | Except.error e =>
              { outcome := Except.error e, fs := fs,
                requests := [theRequest token host],
                opened := false, closed := false }
          | Except.ok response =>
              match response.jsonBody with
              | none =>
                  { outcome := Except.error PyError.jsonDecodeError, fs := fs,
                    requests := [theRequest token host],
                    opened := false, closed := false }
              | some listOrgs =>
                  match pyIter listOrgs with
                  | Except.error e =>
                      { outcome := Except.error e, fs := some "",
                        requests := [theRequest token host],
                        opened := true, closed := false }
                  | Except.ok orgs =>
                      match writeLoop "" orgs with
                      | (content, Except.ok _) =>
                          { outcome := Except.ok (), fs := some content,
                            requests := [theRequest token host],
                            opened := true, closed := true }
                      | (content, Except.error e) =>
                          { outcome := Except.error e, fs := some content,
                            requests := [theRequest token host],
                            opened := true, closed := false }

/-- The newline-terminated concatenation of a list of login names: the file
content a successful run produces. -/
def linesOut : List String → String
  | [] => ""
  | l :: rest => l ++ "\n" ++ linesOut rest

/-!  Helper lemmas shared by the claim theorems.  -/

/-- The element-wise relation between a response array element and a login
name: subscripting the element with `"login"` yields that name as a string. -/
def HasLogin (org : Json) (l : String) : Prop :=
  pySubscript org "login" = Except.ok (Json.str l)

theorem strAppendAssoc (a b c : String) : a ++ b ++ c = a ++ (b ++ c) :=
  String.ext (by simp)

theorem writeLoop_segment (c : String) (orgs : List Json) (logins : List String)
    (tail : List Json) (h : List.Forall₂ HasLogin orgs logins) :
    writeLoop c (orgs ++ tail) = writeLoop (c ++ linesOut logins) tail := by
  induction h generalizing c with
  | nil => simp [linesOut]
  | @cons org l orgs2 logins2 h1 _ ih =>
      have h1e : pySubscript org "login" = Except.ok (Json.str l) := h1
      simp only [List.cons_append, writeLoop, h1e, linesOut, List.append_eq]
      rw [ih]
      congr 1
      simp [strAppendAssoc]

theorem writeLoop_ok (c : String) (orgs : List Json) (logins : List String)
    (h : List.Forall₂ HasLogin orgs logins) :
    writeLoop c orgs = (c ++ linesOut logins, Except.ok ()) := by
  have := writeLoop_segment c orgs logins [] h
  simpa [writeLoop] using this

theorem scriptRun_requests_eq (env : String → Option String)
    (http : HttpRequest → Except PyError HttpResponse) (fs : Option String)
    (token host : String)
    (htok : env "GHES_TOKEN" = some token)
    (hhost : env "GHES_HOST" = some host) :
    (scriptRun env http fs).requests = [theRequest token host] := by
  unfold scriptRun
  rw [htok, hhost]
  cases h1 : http (theRequest token host) with
  | error e => simp only [h1]
  | ok response =>
      cases h2 : response.jsonBody with
      | none => simp only [h1, h2]
      | some listOrgs =>
          cases h3 : pyIter listOrgs with
          | error e => simp only [h1, h2, h3]
          | ok orgs =>
              cases h4 : writeLoop "" orgs with
              | mk content r =>
                  cases r with
                  | error e => simp only [h1, h2, h3, h4]
                  | ok u => simp only [h1, h2, h3, h4]

theorem strEmptyAppend (s : String) : "" ++ s = s := by
  cases s with
  | mk l => rfl

theorem scriptRun_writes_ok (env : String → Option String)
    (http : HttpRequest → Except PyError HttpResponse) (fs : Option String)
    (token host : String) (response : HttpResponse)
    (orgs : List Json) (content : String)
    (htok : env "GHES_TOKEN" = some token)
    (hhost : env "GHES_HOST" = some host)
    (hresp : http (theRequest token host) = Except.ok response)
    (hbody : response.jsonBody = some (Json.arr orgs))
    (hloop : writeLoop "" orgs = (content, Except.ok ())) :
    scriptRun env http fs =
      { outcome := Except.ok (), fs := some content,
        requests := [theRequest token host], opened := true, closed := true } := by
  unfold scriptRun
  rw [htok, hhost]
  simp only [hresp, hbody, pyIter, hloop]

theorem scriptRun_loop_fails (env : String → Option String)
    (http : HttpRequest → Except PyError HttpResponse) (fs : Option String)
    (token host : String) (response : HttpResponse)
    (orgs : List Json) (content : String) (e : PyError)
    (htok : env "GHES_TOKEN" = some token)
    (hhost : env "GHES_HOST" = some host)
    (hresp : http (theRequest token host) = Except.ok response)
    (hbody : response.jsonBody = some (Json.arr orgs))
    (hloop : writeLoop "" orgs = (content, Except.error e)) :
    scriptRun env http fs =
      { outcome := Except.error e, fs := some content,
        requests := [theRequest token host], opened := true, closed := false } := by
  unfold scriptRun
  rw [htok, hhost]
  simp only [hresp, hbody, pyIter, hloop]

/-!  Concrete instances used by the witnesses.  -/

/-- An environment holding the configuration of the test in section 8 of the
specification: token abc123 and host example.com. -/
def envEx : String → Option String :=
  fun name =>
    if name = "GHES_TOKEN" then some "abc123"
    else if name = "GHES_HOST" then some "example.com" else none

/-- The two-organization response body of the specification test. -/
def respTwoOrgs : HttpResponse :=
  { status := 200,
    jsonBody := some (Json.arr
      [Json.obj [("login", Json.str "org-one")],
       Json.obj [("login", Json.str "org-two")]]) }

/-- An HTTP oracle answering every request with `respTwoOrgs`. -/
def httpTwoOrgs : HttpRequest → Except PyError HttpResponse :=
  fun _ => Except.ok respTwoOrgs

/-- An HTTP oracle answering with a single organization org-three. -/
def httpOrgThree : HttpRequest → Except PyError HttpResponse :=
  fun _ => Except.ok
    { status := 200, jsonBody := some (Json.arr [Json.obj [("login", Json.str "org-three")]]) }

/-- An HTTP oracle whose response array has a second element lacking the
login key. -/
def httpMissingLogin : HttpRequest → Except PyError HttpResponse :=
  fun _ => Except.ok
    { status := 200,
      jsonBody := some (Json.arr
        [Json.obj [("login", Json.str "org-one")],
         Json.obj [("id", Json.num 1)],
         Json.obj [("login", Json.str "org-three")]]) }

/-- An HTTP oracle answering with an empty JSON array. -/
def httpEmptyArr : HttpRequest → Except PyError HttpResponse :=
  fun _ => Except.ok { status := 200, jsonBody := some (Json.arr []) }

/-- An HTTP oracle answering 500 with a body that is not valid JSON. -/
def httpStatus500NoJson : HttpRequest → Except PyError HttpResponse :=
  fun _ => Except.ok { status := 500, jsonBody := none }

/-- An HTTP oracle answering 200 with a body that is not valid JSON. -/
def httpStatus200NoJson : HttpRequest → Except PyError HttpResponse :=
  fun _ => Except.ok { status := 200, jsonBody := none }

/-- An HTTP oracle that fails at the transport layer. -/
def httpConnFail : HttpRequest → Except PyError HttpResponse :=
  fun _ => Except.error PyError.connectionError

/-- An environment with no variables set. -/
def envNone : String → Option String := fun _ => none

/-- An environment with only the token set. -/
def envOnlyToken : String → Option String :=
  fun name => if name = "GHES_TOKEN" then some "abc123" else none

/-- An environment whose token is the empty string and whose host is
example.com. -/
def envEmptyToken : String → Option String :=
  fun name =>
    if name = "GHES_TOKEN" then some ""
    else if name = "GHES_HOST" then some "example.com" else none

/-!  Claim theorems.  -/

/-- C1: for every decoded JSON response that is an array of objects each
having a string login field, the run succeeds and writes exactly one line per
element, the i-th line being the i-th login followed by a newline, in array
order, with no sorting, deduplication or extra whitespace. -/
theorem c1_file_lines_match_array (env : String → Option String)
    (http : HttpRequest → Except PyError HttpResponse) (fs : Option String)
    (token host : String) (response : HttpResponse)
    (orgs : List Json) (logins : List String)
    (htok : env "GHES_TOKEN" = some token)
    (hhost : env "GHES_HOST" = some host)
    (hresp : http (theRequest token host) = Except.ok response)
    (hbody : response.jsonBody = some (Json.arr orgs))
    (hlogin : List.Forall₂ HasLogin orgs logins) :
    scriptRun env http fs =
      { outcome := Except.ok (), fs := some (linesOut logins),
        requests := [theRequest token host], opened := true, closed := true } := by
  have hloop := writeLoop_ok "" orgs logins hlogin
  rw [strEmptyAppend] at hloop
  exact scriptRun_writes_ok env http fs token host response orgs (linesOut logins)
    htok hhost hresp hbody hloop

/-- Witness for C1: the section 8 test case, body
[ob(login org-one), ob(login org-two)], yields exactly the file content
org-one, newline, org-two, newline. -/
theorem c1_witness :
    scriptRun envEx httpTwoOrgs none =
      { outcome := Except.ok (), fs := some "org-one\norg-two\n",
        requests := [theRequest "abc123" "example.com"],
        opened := true, closed := true } := by
  have h := c1_file_lines_match_array envEx httpTwoOrgs none "abc123" "example.com"
    respTwoOrgs
    [Json.obj [("login", Json.str "org-one")], Json.obj [("login", Json.str "org-two")]]
    ["org-one", "org-two"] rfl rfl rfl rfl
    (List.Forall₂.cons rfl (List.Forall₂.cons rfl List.Forall₂.nil))
  rw [h]
  rfl

/-- C2: whenever both configuration variables are present, the run issues
exactly one HTTP request, a GET whose URL is https:// ++ host ++
/api/v3/organizations. -/
theorem c2_single_get_request (env : String → Option String)
    (http : HttpRequest → Except PyError HttpResponse) (fs : Option String)
    (token host : String)
    (htok : env "GHES_TOKEN" = some token)
    (hhost : env "GHES_HOST" = some host) :
    (scriptRun env http fs).requests = [theRequest token host] ∧
    (theRequest token host).method = "GET" ∧
    (theRequest token host).url = "https://" ++ host ++ "/api/v3/organizations" :=
  ⟨scriptRun_requests_eq env http fs token host htok hhost, rfl, rfl⟩

/-- Witness for C2: with host example.com the single request targets
https://example.com/api/v3/organizations. -/
theorem c2_witness :
    (scriptRun envEx httpTwoOrgs none).requests = [theRequest "abc123" "example.com"] ∧
    (theRequest "abc123" "example.com").method = "GET" ∧
    (theRequest "abc123" "example.com").url = "https://example.com/api/v3/organizations" := by
  have h := c2_single_get_request envEx httpTwoOrgs none "abc123" "example.com" rfl rfl
  exact ⟨h.1, h.2.1, h.2.2.trans rfl⟩

/-- C3: every request the run issues carries exactly the two headers the
script sets, Authorization with the literal prefix token-space followed by
the token, and Accept with the GitHub v3 JSON media type. -/
theorem c3_exactly_two_headers (env : String → Option String)
    (http : HttpRequest → Except PyError HttpResponse) (fs : Option String)
    (token host : String)
    (htok : env "GHES_TOKEN" = some token)
    (hhost : env "GHES_HOST" = some host) :
    ∀ r ∈ (scriptRun env http fs).requests,
      r.headers = [("Authorization", "token " ++ token),
                   ("Accept", "application/vnd.github.v3+json")] ∧
      r.headers.length = 2 := by
  intro r hr
  rw [scriptRun_requests_eq env http fs token host htok hhost] at hr
  rw [List.mem_singleton] at hr
  subst hr
  exact ⟨rfl, rfl⟩

/-- Witness for C3: with token abc123 the request carries exactly the headers
Authorization token abc123 and Accept application/vnd.github.v3+json. -/
theorem c3_witness :
    (theRequest "abc123" "example.com").headers =
      [("Authorization", "token abc123"),
       ("Accept", "application/vnd.github.v3+json")] ∧
    (theRequest "abc123" "example.com").headers.length = 2 := by
  have h := c3_exactly_two_headers envEx httpTwoOrgs none "abc123" "example.com" rfl rfl
    (theRequest "abc123" "example.com") (List.Mem.head _)
  exact ⟨h.1.trans rfl, h.2⟩

/-- C4: if an array element lacks the login key, the run stops with a
KeyError at that element, the file keeps exactly the lines written for the
preceding elements, and the run does not finish successfully (the close step
is never reached). -/
theorem c4_missing_login_aborts (env : String → Option String)
    (http : HttpRequest → Except PyError HttpResponse) (fs : Option String)
    (token host : String) (response : HttpResponse)
    (pre : List Json) (logins : List String)
    (bad : List (String × Json)) (rest : List Json)
    (htok : env "GHES_TOKEN" = some token)
    (hhost : env "GHES_HOST" = some host)
    (hresp : http (theRequest token host) = Except.ok response)
    (hbody : response.jsonBody = some (Json.arr (pre ++ Json.obj bad :: rest)))
    (hpre : List.Forall₂ HasLogin pre logins)
    (hbad : dictGet bad "login" = none) :
    scriptRun env http fs =
      { outcome := Except.error (PyError.keyError "login"),
        fs := some (linesOut logins),
        requests := [theRequest token host], opened := true, closed := false } := by
  have hloop : writeLoop "" (pre ++ Json.obj bad :: rest) =
      (linesOut logins, Except.error (PyError.keyError "login")) := by
    rw [writeLoop_segment "" pre logins (Json.obj bad :: rest) hpre, strEmptyAppend]
    simp [writeLoop, pySubscript, hbad]
  exact scriptRun_loop_fails env http fs token host response _ (linesOut logins)
    (PyError.keyError "login") htok hhost hresp hbody hloop

/-- Witness for C4: with a response whose second element has no login key,
the run ends in KeyError with the file holding only the first line, the file
left open. -/
theorem c4_witness :
    scriptRun envEx httpMissingLogin none =
      { outcome := Except.error (PyError.keyError "login"),
        fs := some "org-one\n",
        requests := [theRequest "abc123" "example.com"],
        opened := true, closed := false } := by
  have h := c4_missing_login_aborts envEx httpMissingLogin none "abc123" "example.com"
    { status := 200,
      jsonBody := some (Json.arr
        [Json.obj [("login", Json.str "org-one")],
         Json.obj [("id", Json.num 1)],
         Json.obj [("login", Json.str "org-three")]]) }
    [Json.obj [("login", Json.str "org-one")]] ["org-one"]
    [("id", Json.num 1)] [Json.obj [("login", Json.str "org-three")]]
    rfl rfl rfl rfl
    (List.Forall₂.cons rfl List.Forall₂.nil) rfl
  rw [h]
  rfl

/-- Counterexample to C5 as stated: with GHES_TOKEN present but equal to the
empty string (and a normal host and response), the run does not fail at all:
the header concatenation succeeds, the request is issued, and the run
completes with a success outcome, contradicting fail-fast on an empty value. -/
theorem c5_counterexample :
    envEmptyToken "GHES_TOKEN" = some "" ∧
    scriptRun envEmptyToken httpTwoOrgs none =
      { outcome := Except.ok (), fs := some "org-one\norg-two\n",
        requests := [theRequest "" "example.com"], opened := true, closed := true } :=
  ⟨rfl, rfl⟩

/-- C5 (amended): the run fails fast, with a TypeError before any request is
issued and with the file untouched, when either variable is absent (token
absent fails at the header concatenation, host absent at the URL
concatenation); a present-but-empty value does not fail at these steps: the
request is still issued. -/
theorem c5_fail_fast_only_when_absent (env : String → Option String)
    (http : HttpRequest → Except PyError HttpResponse) (fs : Option String) :
    (env "GHES_TOKEN" = none →
        scriptRun env http fs =
          { outcome := Except.error PyError.typeError, fs := fs, requests := [],
            opened := false, closed := false }) ∧
    (∀ token, env "GHES_TOKEN" = some token → env "GHES_HOST" = none →
        scriptRun env http fs =
          { outcome := Except.error PyError.typeError, fs := fs, requests := [],
            opened := false, closed := false }) ∧
    (∀ token host, env "GHES_TOKEN" = some token → env "GHES_HOST" = some host →
        (scriptRun env http fs).requests = [theRequest token host]) := by
  refine ⟨?tokAbsent, ?hostAbsent, ?present⟩
  · intro h
    unfold scriptRun
    rw [h]
  · intro token h1 h2
    unfold scriptRun
    rw [h1, h2]
  · intro token host h1 h2
    exact scriptRun_requests_eq env http fs token host h1 h2

/-- Witness for C5 (amended): absent token, absent host, and the
empty-token-still-requests case, each at concrete inputs. -/
theorem c5_witness :
    scriptRun envNone httpTwoOrgs (some "old") =
      { outcome := Except.error PyError.typeError, fs := some "old", requests := [],
        opened := false, closed := false } ∧
    scriptRun envOnlyToken httpTwoOrgs none =
      { outcome := Except.error PyError.typeError, fs := none, requests := [],
        opened := false, closed := false } ∧
    (scriptRun envEmptyToken httpTwoOrgs none).requests = [theRequest "" "example.com"] := by
  have h1 := c5_fail_fast_only_when_absent envNone httpTwoOrgs (some "old")
  have h2 := c5_fail_fast_only_when_absent envOnlyToken httpTwoOrgs none
  have h3 := c5_fail_fast_only_when_absent envEmptyToken httpTwoOrgs none
  exact ⟨h1.1 rfl, h2.2.1 "abc123" rfl rfl, h3.2.2 "" "example.com" rfl rfl⟩

/-- C6: the output file is opened in truncate-write mode: once the request
and the JSON decode succeed, the final file state is independent of whatever
content the file held before the run, so a second run leaves only the second
run's content. -/
theorem c6_truncates_prior_content (env : String → Option String)
    (http : HttpRequest → Except PyError HttpResponse)
    (token host : String) (response : HttpResponse)
    (fs1 fs2 : Option String)
    (htok : env "GHES_TOKEN" = some token)
    (hhost : env "GHES_HOST" = some host)
    (hresp : http (theRequest token host) = Except.ok response)
    (hdec : response.jsonBody.isSome = true) :
    (scriptRun env http fs1).fs = (scriptRun env http fs2).fs := by
  unfold scriptRun
  rw [htok, hhost]
  cases h2 : response.jsonBody with
  | none => rw [h2] at hdec; simp at hdec
  | some listOrgs => simp only [hresp, h2]

/-- Witness for C6: running against the two-organization response and then
against the one-organization response leaves exactly the state the second run
would produce on a missing file. -/
theorem c6_witness :
    (scriptRun envEx httpOrgThree (scriptRun envEx httpTwoOrgs none).fs).fs =
      (scriptRun envEx httpOrgThree none).fs := by
  exact c6_truncates_prior_content envEx httpOrgThree "abc123" "example.com"
    { status := 200, jsonBody := some (Json.arr [Json.obj [("login", Json.str "org-three")]]) }
    (scriptRun envEx httpTwoOrgs none).fs none rfl rfl rfl rfl

/-- C7: if the decoded response is the empty array, the run succeeds and the
resulting file exists and is empty. -/
theorem c7_empty_array_empty_file (env : String → Option String)
    (http : HttpRequest → Except PyError HttpResponse) (fs : Option String)
    (token host : String) (status : Nat)
    (htok : env "GHES_TOKEN" = some token)
    (hhost : env "GHES_HOST" = some host)
    (hresp : http (theRequest token host) =
      Except.ok { status := status, jsonBody := some (Json.arr []) }) :
    scriptRun env http fs =
      { outcome := Except.ok (), fs := some "",
        requests := [theRequest token host], opened := true, closed := true } :=
  scriptRun_writes_ok env http fs token host
    { status := status, jsonBody := some (Json.arr []) } [] ""
    htok hhost hresp rfl rfl

/-- Witness for C7: the empty-array response turns a pre-existing file with
old content into an existing, empty file. -/
theorem c7_witness :
    scriptRun envEx httpEmptyArr (some "old-content") =
      { outcome := Except.ok (), fs := some "",
        requests := [theRequest "abc123" "example.com"], opened := true, closed := true } :=
  c7_empty_array_empty_file envEx httpEmptyArr (some "old-content")
    "abc123" "example.com" 200 rfl rfl rfl

/-- Whether the run outcome is a normal termination. -/
def exceptIsOk : Except PyError Unit → Bool
  | Except.ok _ => true
  | Except.error _ => false

/-- C8: no status-code check exists. The run is fully determined by the
decoded JSON body of each response (two oracles whose responses differ only
in status give identical runs); a response whose body is not valid JSON ends
in a JSON decode error and one whose body is JSON but not iterable objects
with login ends at the field-access step, both whatever the status. -/
theorem c8_status_never_checked (env : String → Option String)
    (f g : HttpRequest → Except PyError HttpResponse) (fs : Option String)
    (token host : String) (status : Nat)
    (htok : env "GHES_TOKEN" = some token)
    (hhost : env "GHES_HOST" = some host) :
    ((∀ r, Except.map HttpResponse.jsonBody (f r) = Except.map HttpResponse.jsonBody (g r)) →
        scriptRun env f fs = scriptRun env g fs) ∧
    (f (theRequest token host) = Except.ok { status := status, jsonBody := none } →
        (scriptRun env f fs).outcome = Except.error PyError.jsonDecodeError) ∧
    (f (theRequest token host) = Except.ok { status := status, jsonBody := some (Json.num 3) } →
        (scriptRun env f fs).outcome = Except.error PyError.typeError) := by
  refine ⟨?statusFree, ?badBody, ?badShape⟩
  · intro hsame
    have hs := hsame (theRequest token host)
    unfold scriptRun
    rw [htok, hhost]
    cases hf : f (theRequest token host) with
    | error e =>
        cases hg : g (theRequest token host) with
        | error e2 =>
            rw [hf, hg] at hs
            simp [Except.map] at hs
            subst hs
            simp only [hf, hg]
        | ok resp2 =>
            rw [hf, hg] at hs
            simp [Except.map] at hs
    | ok resp =>
        cases hg : g (theRequest token host) with
        | error e2 =>
            rw [hf, hg] at hs
            simp [Except.map] at hs
        | ok resp2 =>
            rw [hf, hg] at hs
            simp [Except.map] at hs
            simp only [hf, hg, hs]
  · intro h
    unfold scriptRun
    rw [htok, hhost]
    simp only [h]
  · intro h
    unfold scriptRun
    rw [htok, hhost]
    simp only [h]
    rfl

/-- Witness for C8: a 500 response with a non-JSON body behaves exactly like
a 200 response with a non-JSON body, both ending in the decode error. -/
theorem c8_witness :
    scriptRun envEx httpStatus500NoJson none = scriptRun envEx httpStatus200NoJson none ∧
    (scriptRun envEx httpStatus500NoJson none).outcome = Except.error PyError.jsonDecodeError := by
  have h := c8_status_never_checked envEx httpStatus500NoJson httpStatus200NoJson none
    "abc123" "example.com" 500 rfl rfl
  exact ⟨h.1 (fun r => rfl), h.2.1 rfl⟩

/-- C9: the close step runs exactly on the happy path: in every run the file
handle is closed precisely when the run terminates normally, and in the
concrete run that fails inside the write loop the file has been opened but is
never closed. -/
theorem c9_close_reached_only_on_success :
    (∀ (env : String → Option String)
       (http : HttpRequest → Except PyError HttpResponse) (fs : Option String),
        (scriptRun env http fs).closed = exceptIsOk (scriptRun env http fs).outcome) ∧
    (scriptRun envEx httpMissingLogin none).opened = true ∧
    (scriptRun envEx httpMissingLogin none).closed = false := by
  refine ⟨?allRuns, rfl, rfl⟩
  intro env http fs
  unfold scriptRun
  cases env "GHES_TOKEN" with
  | none => rfl
  | some token =>
    cases env "GHES_HOST" with
    | none => rfl
    | some host =>
      cases h1 : http (theRequest token host) with
      | error e => simp only [h1]; rfl
      | ok response =>
        cases h2 : response.jsonBody with
        | none => simp only [h1, h2]; rfl
        | some listOrgs =>
          cases h3 : pyIter listOrgs with
          | error e => simp only [h1, h2, h3]; rfl
          | ok orgs =>
            cases h4 : writeLoop "" orgs with
            | mk content r =>
              cases r with
              | error e => simp only [h1, h2, h3, h4]; rfl
              | ok u => simp only [h1, h2, h3, h4]; rfl

/-- C10: the output file is opened, and hence truncated, only after both the
request and the JSON decode succeed: a transport failure or a non-JSON body
leaves any pre-existing file content exactly as it was, with the file never
opened. -/
theorem c10_no_truncation_before_decode (env : String → Option String)
    (http : HttpRequest → Except PyError HttpResponse) (fs : Option String)
    (token host : String)
    (htok : env "GHES_TOKEN" = some token)
    (hhost : env "GHES_HOST" = some host) :
    (∀ e, http (theRequest token host) = Except.error e →
        (scriptRun env http fs).fs = fs ∧ (scriptRun env http fs).opened = false) ∧
    (∀ status, http (theRequest token host) = Except.ok { status := status, jsonBody := none } →
        (scriptRun env http fs).fs = fs ∧ (scriptRun env http fs).opened = false) := by
  constructor
  · intro e h
    unfold scriptRun
    rw [htok, hhost]
    simp only [h]
    exact ⟨trivial, trivial⟩
  · intro status h
    unfold scriptRun
    rw [htok, hhost]
    simp only [h]
    exact ⟨trivial, trivial⟩

/-- Witness for C10: both a transport failure and a 500 non-JSON body leave a
pre-existing file content keep-me untouched and the file never opened. -/
theorem c10_witness :
    ((scriptRun envEx httpConnFail (some "keep-me")).fs = some "keep-me" ∧
     (scriptRun envEx httpConnFail (some "keep-me")).opened = false) ∧
    ((scriptRun envEx httpStatus500NoJson (some "keep-me")).fs = some "keep-me" ∧
     (scriptRun envEx httpStatus500NoJson (some "keep-me")).opened = false) := by
  have h1 := c10_no_truncation_before_decode envEx httpConnFail (some "keep-me")
    "abc123" "example.com" rfl rfl
  have h2 := c10_no_truncation_before_decode envEx httpStatus500NoJson (some "keep-me")
    "abc123" "example.com" rfl rfl
  exact ⟨h1.1 PyError.connectionError rfl, h2.2 500 rfl⟩
